import Mathlib

/-!
Shallow embedding of `logi_circle_legacy/camera.py`: the command dispatcher
(`service_handler`), the per-camera adapter operations of `LogiCam`
(`set_config`, `livestream_snapshot`, `download_livestream`, `async_turn_on`,
`async_turn_off`, `async_camera_image`, `device_state_attributes`), and the
try/finally semantics of `handle_async_mjpeg_stream`.

Awaited vendor-SDK coroutines are modelled as values of `Except String _`
(an `Except.error` models a raised exception); side effects on the Device
Handle are modelled as emitted `DeviceCall` events, and `_LOGGER.error`
calls as emitted `LogEvent` events.  A Python function that cannot raise is
modelled as a total Lean function whose result type has no error component.
-/

namespace LogiCircle

/-- A call made against the vendor SDK Device Handle (`self._camera`). -/
inductive DeviceCall where
  | set_led (value : Bool)
  | set_privacy_mode (value : Bool)
  | set_battery_saving_mode (value : Bool)
  | set_streaming_mode (value : Bool)
  | get_livestream_image (path : String)
  | record_livestream (path : String) (durationSeconds : Nat)
  deriving DecidableEq, Repr

/-- A local log emission; `errorNoAccess p` models
`_LOGGER.error("Can.t write %s, no access to path!", p)`. -/
inductive LogEvent where
  | errorNoAccess (path : String)
  deriving DecidableEq, Repr

/-- Host-framework services consumed by the adapter: the path whitelist
check `hass.config.is_allowed_path`. -/
structure HostEnv where
  is_allowed_path : String → Bool

/-- A filename template; rendering substitutes the `entity_id` variable,
modelling `filename.async_render(variables={ATTR_ENTITY_ID: self.entity_id})`. -/
def Template : Type := String → String

/-- Constant `LED_MODE_KEY = 'LED'` from the source. -/
def LED_MODE_KEY : String := "LED"

/-- Constant `PRIVACY_MODE_KEY = 'PRIVACY_MODE'` from the source. -/
def PRIVACY_MODE_KEY : String := "PRIVACY_MODE"

/-- Constant `BATTERY_SAVING_MODE_KEY = 'BATTERY_SAVING'` from the source. -/
def BATTERY_SAVING_MODE_KEY : String := "BATTERY_SAVING"

/-- Constant `SERVICE_SET_CONFIG` from the source. -/
def SERVICE_SET_CONFIG : String := "logi_circle_set_config"

/-- Constant `SERVICE_LIVESTREAM_SNAPSHOT` from the source. -/
def SERVICE_LIVESTREAM_SNAPSHOT : String := "logi_circle_livestream_snapshot"

/-- Constant `SERVICE_LIVESTREAM_RECORD` from the source. -/
def SERVICE_LIVESTREAM_RECORD : String := "logi_circle_livestream_record"

/-- Host constant `STATE_ON` (external collaborator value). -/
def STATE_ON : String := "on"

/-- Host constant `STATE_OFF` (external collaborator value). -/
def STATE_OFF : String := "off"

/-- Modelled from the spec: the attribution string constant imported via
`from . import ATTRIBUTION`; the package root module is not under `src/`.
Only its presence in the attribute map matters to the claims, not its text. -/
def ATTRIBUTION : String := "Data provided by circle.logi.com"

/-- Host constant `ATTR_ATTRIBUTION` (external collaborator value). -/
def ATTR_ATTRIBUTION : String := "attribution"

/-- Host constant `ATTR_BATTERY_CHARGING` (external collaborator value). -/
def ATTR_BATTERY_CHARGING : String := "battery_charging"

/-- Host constant `ATTR_BATTERY_LEVEL` (external collaborator value). -/
def ATTR_BATTERY_LEVEL : String := "battery_level"

/-- The observable state of a vendor SDK Device Handle at one instant:
every field the adapter reads from `self._camera`. -/
structure Camera where
  name : String
  mac_address : String
  supports_feature : String → Bool
  battery_saving : Bool
  ip_address : String
  microphone_gain : Nat
  is_charging : Bool
  battery_level : Nat

/-- The adapter state captured by `LogiCam.__init__`: name, id and the
battery-capability flag are read from the Device Handle once, at
construction time. -/
structure LogiCam where
  name : String
  id : String
  has_battery : Bool

/-- `LogiCam.__init__(self, camera, ...)`: `_name = camera.name`,
`_id = camera.mac_address`,
`_has_battery = camera.supports_feature('battery_level')`. -/
def LogiCam.init (c : Camera) : LogiCam :=
  { name := c.name
    id := c.mac_address
    has_battery := c.supports_feature "battery_level" }

/-- A value stored in the state-attribute mapping. -/
inductive AttrVal where
  | str (s : String)
  | bool (b : Bool)
  | nat (n : Nat)
  deriving DecidableEq, Repr

/-- `LogiCam.device_state_attributes`: builds the attribute mapping fresh
from the Device Handle state `c` at read time; the battery pair is appended
only when the init-time `_has_battery` flag is set. -/
def device_state_attributes (cam : LogiCam) (c : Camera) :
    List (String × AttrVal) :=
  [(ATTR_ATTRIBUTION, AttrVal.str ATTRIBUTION),
   ("battery_saving_mode",
     AttrVal.str (if c.battery_saving then STATE_ON else STATE_OFF)),
   ("ip_address", AttrVal.str c.ip_address),
   ("microphone_gain", AttrVal.nat c.microphone_gain)] ++
  (if cam.has_battery then
    [(ATTR_BATTERY_CHARGING, AttrVal.bool c.is_charging),
     (ATTR_BATTERY_LEVEL, AttrVal.nat c.battery_level)]
   else [])

/-- `LogiCam.async_camera_image`: `return await self._camera.get_snapshot_image()`.
The argument is the outcome of the awaited Device Handle snapshot fetch;
the method body is exactly that await, so the outcome passes through. -/
def async_camera_image (snap : Except String (List Nat)) :
    Except String (List Nat) :=
  snap

/-- `LogiCam.async_turn_on`: `await self._camera.set_streaming_mode(True)`.
The method touches no adapter field; its only effect is the emitted call. -/
def async_turn_on : List DeviceCall :=
  [DeviceCall.set_streaming_mode true]

/-- `LogiCam.async_turn_off`: `await self._camera.set_streaming_mode(False)`. -/
def async_turn_off : List DeviceCall :=
  [DeviceCall.set_streaming_mode false]

/-- `LogiCam.set_config(mode, value)`: three independent `if` statements,
each comparing `mode` to one key and awaiting the matching setter. -/
def set_config (mode : String) (value : Bool) : List DeviceCall :=
  (if mode = LED_MODE_KEY then [DeviceCall.set_led value] else []) ++
  (if mode = PRIVACY_MODE_KEY then [DeviceCall.set_privacy_mode value] else []) ++
  (if mode = BATTERY_SAVING_MODE_KEY then
    [DeviceCall.set_battery_saving_mode value] else [])

/-- `LogiCam.livestream_snapshot(filename)`: renders the template with the
entity id, then `if not hass.config.is_allowed_path(snapshot_file):` logs
one error and returns; otherwise launches (via `asyncio.shield`, so the
call is made but not awaited) `get_livestream_image(snapshot_file)`.
Returns (logged errors, Device Handle calls launched); the Python method
raises nothing past this point, so the model is total. -/
def livestream_snapshot (env : HostEnv) (entity_id : String)
    (filename : Template) : List LogEvent × List DeviceCall :=
  let snapshot_file := filename entity_id
  if !(env.is_allowed_path snapshot_file) then
    ([LogEvent.errorNoAccess snapshot_file], [])
  else
    ([], [DeviceCall.get_livestream_image snapshot_file])

/-- `LogiCam.download_livestream(filename, duration)`: same whitelist gate,
then launches (shielded) `record_livestream(stream_file, timedelta(seconds=duration))`. -/
def download_livestream (env : HostEnv) (entity_id : String)
    (filename : Template) (duration : Nat) : List LogEvent × List DeviceCall :=
  let stream_file := filename entity_id
  if !(env.is_allowed_path stream_file) then
    ([LogEvent.errorNoAccess stream_file], [])
  else
    ([], [DeviceCall.record_livestream stream_file duration])

/-- Outcome of `await stream.close()` in `handle_async_mjpeg_stream`:
closed normally, raised `BrokenPipeError`, or raised some other error. -/
inductive CloseOutcome where
  | closed
  | brokenPipe
  | fail (e : String)
  deriving DecidableEq, Repr

/-- How a Python `finally` block ends: completing normally (the pending
result of the `try` body stands), executing a `return v` of its own (which
overrides any pending result or in-flight exception), or raising (which
likewise overrides). -/
inductive FinOut (α : Type) where
  | normal
  | ret (v : α)
  | raise (e : String)

/-- Python `try`/`finally` semantics: `body` is the pending outcome of the
`try` block (result or in-flight exception); the finalizer outcome decides
what the whole statement does. -/
def pyTryFinally {α : Type} (body : Except String α) : FinOut α → Except String α
  | FinOut.normal => body
  | FinOut.ret v => Except.ok v
  | FinOut.raise e => Except.error e

/-- Observable steps of `handle_async_mjpeg_stream` after `open_camera`
succeeded: the proxy byte-copy, and the close of the transcoding process. -/
inductive StreamEv where
  | proxyCopy
  | closeProc
  deriving DecidableEq, Repr

/-- `LogiCam.handle_async_mjpeg_stream`, after `stream.open_camera`
succeeded.  `copyRes` is the outcome of
`await async_aiohttp_proxy_stream(...)` inside the `try` (a result value,
modelled as `Nat`, or a raised exception); `closeRes` is the outcome of
`await stream.close()` in the `finally`.  The inner
`try: close / except BrokenPipeError: return` maps a normal close to a
normally-completing finalizer, a `BrokenPipeError` to `return None`
(a `return` inside `finally`, overriding any pending outcome), and any
other close exception to a raise from the finalizer.  Returns the event
trace and the overall outcome delivered to the caller. -/
def handle_async_mjpeg_stream (copyRes : Except String Nat)
    (closeRes : CloseOutcome) : List StreamEv × Except String (Option Nat) :=
  ([StreamEv.proxyCopy, StreamEv.closeProc],
   pyTryFinally (copyRes.map some)
     (match closeRes with
      | CloseOutcome.closed => FinOut.normal
      | CloseOutcome.brokenPipe => FinOut.ret none
      | CloseOutcome.fail e => FinOut.raise e))

/-- One adapter as seen by the dispatcher: its host-assigned entity id. -/
structure Adapter where
  entity_id : String
  deriving DecidableEq, Repr

/-- A Device Handle call attributed to the adapter that made it. -/
structure Inv where
  entity_id : String
  call : DeviceCall
  deriving DecidableEq, Repr

/-- The service parameters left after
`params = {k: v for k, v in service.data.items() if k != ATTR_ENTITY_ID}`;
each registered service reads the fields its schema declares. -/
structure SvcParams where
  mode : String
  value : Bool
  filename : Template
  duration : Nat

/-- A host service invocation: service name, the optional
`ATTR_ENTITY_ID` entry of `service.data`, and the remaining parameters. -/
structure ServiceCall where
  service : String
  entity_ids : Option (List String)
  params : SvcParams

/-- `entity_ids = service.data.get(ATTR_ENTITY_ID)` followed by
`if entity_ids:` — a Python truthiness test, false for both a missing key
and a present-but-empty list — selecting either the filtered camera list
or all cameras. -/
def target_devices (cameras : List Adapter)
    (entity_ids : Option (List String)) : List Adapter :=
  match entity_ids with
  | some ids =>
    if ids.isEmpty then cameras
    else cameras.filter (fun dev => ids.contains dev.entity_id)
  | none => cameras

/-- Awaits a list of Device Handle calls in order against the device
behaviour `beh` (which says, per adapter id and call, whether the awaited
SDK coroutine returns or raises).  A raise aborts the remaining calls.
Returns the calls actually made and the raised error, if any. -/
def runCalls (beh : String → DeviceCall → Except String Unit)
    (eid : String) : List DeviceCall → List Inv × Option String
  | [] => ([], none)
  | c :: cs =>
    match beh eid c with
    | Except.ok _ =>
      let r := runCalls beh eid cs
      (⟨eid, c⟩ :: r.1, r.2)
    | Except.error e => ([⟨eid, c⟩], some e)

/-- The loop body of `service_handler` for one target device: the three
`if service.service == ...` tests (mutually exclusive since the three
service names are distinct strings) invoke the matching adapter method
with the pass-through params.  `set_config` awaits Device Handle setters,
so it can raise (third component); the two file operations only log or
launch a shielded call and raise nothing. -/
def adapterOp (env : HostEnv) (beh : String → DeviceCall → Except String Unit)
    (cam : Adapter) (svcName : String) (p : SvcParams) :
    List Inv × List LogEvent × Option String :=
  if svcName = SERVICE_SET_CONFIG then
    let r := runCalls beh cam.entity_id (set_config p.mode p.value)
    (r.1, [], r.2)
  else if svcName = SERVICE_LIVESTREAM_SNAPSHOT then
    let r := livestream_snapshot env cam.entity_id p.filename
    (r.2.map (fun c => ⟨cam.entity_id, c⟩), r.1, none)
  else if svcName = SERVICE_LIVESTREAM_RECORD then
    let r := download_livestream env cam.entity_id p.filename p.duration
    (r.2.map (fun c => ⟨cam.entity_id, c⟩), r.1, none)
  else ([], [], none)

/-- The `for target_device in target_devices:` loop of `service_handler`:
each iteration awaits the adapter operation; an exception raised by one
iteration propagates out of the coroutine and the remaining targets are
never reached. -/
def runTargets (env : HostEnv) (beh : String → DeviceCall → Except String Unit)
    (svcName : String) (p : SvcParams) :
    List Adapter → List Inv × List LogEvent × Option String
  | [] => ([], [], none)
  | cam :: rest =>
    let r := adapterOp env beh cam svcName p
    match r.2.2 with
    | some e => (r.1, r.2.1, some e)
    | none =>
      let rr := runTargets env beh svcName p rest
      (r.1 ++ rr.1, r.2.1 ++ rr.2.1, rr.2.2)

/-- `service_handler(service)`: splits `service.data` into the entity-id
selector and the pass-through params, resolves the target devices, and
runs the per-target loop. -/
def service_handler (env : HostEnv)
    (beh : String → DeviceCall → Except String Unit)
    (cameras : List Adapter) (svc : ServiceCall) :
    List Inv × List LogEvent × Option String :=
  runTargets env beh svc.service svc.params
    (target_devices cameras svc.entity_ids)

/-- C1: for every rendered file path `P = filename entity_id` in the
snapshot-to-file and record-to-file operations: when the whitelist rejects
`P`, no Device Handle call is launched and exactly one error is logged;
when it accepts `P`, exactly one matching Device Handle call is launched
with `P` (and, for recording, the given duration) and nothing is logged.
Both operations are total functions with no error component, which models
that no exception is raised to the caller in either case. -/
theorem livestream_file_ops_whitelist_gated (env : HostEnv)
    (entity_id : String) (filename : Template) (duration : Nat) :
    livestream_snapshot env entity_id filename =
      (if env.is_allowed_path (filename entity_id) then
        ([], [DeviceCall.get_livestream_image (filename entity_id)])
       else ([LogEvent.errorNoAccess (filename entity_id)], [])) ∧
    download_livestream env entity_id filename duration =
      (if env.is_allowed_path (filename entity_id) then
        ([], [DeviceCall.record_livestream (filename entity_id) duration])
       else ([LogEvent.errorNoAccess (filename entity_id)], [])) := by
  cases h : env.is_allowed_path (filename entity_id) <;>
    simp [livestream_snapshot, download_livestream, h]

/-- C2: `set_config` behaves as an exclusive dispatch on the mode key —
each of the three recognised modes triggers exactly its own Device Handle
setter with the given boolean, and any other mode triggers no call at all
(the source writes three independent `if` tests, which coincide with this
exclusive chain because the three keys are distinct strings).  The model
is total, so an unrecognised mode raises no error. -/
theorem set_config_dispatch (mode : String) (value : Bool) :
    set_config mode value =
      (if mode = LED_MODE_KEY then [DeviceCall.set_led value]
       else if mode = PRIVACY_MODE_KEY then [DeviceCall.set_privacy_mode value]
       else if mode = BATTERY_SAVING_MODE_KEY then
         [DeviceCall.set_battery_saving_mode value]
       else []) := by
  by_cases h1 : mode = LED_MODE_KEY
  · subst h1
    simp [set_config, LED_MODE_KEY, PRIVACY_MODE_KEY, BATTERY_SAVING_MODE_KEY]
  · by_cases h2 : mode = PRIVACY_MODE_KEY
    · subst h2
      simp [set_config, LED_MODE_KEY, PRIVACY_MODE_KEY, BATTERY_SAVING_MODE_KEY]
    · by_cases h3 : mode = BATTERY_SAVING_MODE_KEY
      · subst h3
        simp [set_config, LED_MODE_KEY, PRIVACY_MODE_KEY,
          BATTERY_SAVING_MODE_KEY]
      · simp [set_config, h1, h2, h3]

/-- C5: in the live-stream proxy, after the transcoding process opened:
whatever the outcome of the byte-copy, the process close step is in the
trace before the operation returns; if the close raises a
broken-pipe-style error the operation surfaces no error (it returns
normally with no payload); if the close raises any other error, that error
is surfaced to the caller. -/
theorem mjpeg_stream_close_semantics (copyRes : Except String Nat)
    (closeRes : CloseOutcome) (e : String) :
    StreamEv.closeProc ∈ (handle_async_mjpeg_stream copyRes closeRes).1 ∧
    (handle_async_mjpeg_stream copyRes CloseOutcome.brokenPipe).2 =
      Except.ok none ∧
    (handle_async_mjpeg_stream copyRes (CloseOutcome.fail e)).2 =
      Except.error e := by
  refine ⟨?_, rfl, rfl⟩
  simp [handle_async_mjpeg_stream]

/-- C7: the turn-on operation emits exactly one Device Handle call,
`set_streaming_mode true`, and the turn-off operation exactly
`set_streaming_mode false`; the singleton traces show no other call is
made, and neither operation reads or writes any adapter field. -/
theorem turn_on_off_streaming_mode :
    async_turn_on = [DeviceCall.set_streaming_mode true] ∧
    async_turn_off = [DeviceCall.set_streaming_mode false] :=
  ⟨rfl, rfl⟩

/-- C8: the read-image operation returns exactly the bytes the Device
Handle snapshot fetch produced, and if the fetch raised, that same error
is surfaced to the caller, never swallowed. -/
theorem camera_image_passthrough (b : List Nat) (e : String) :
    async_camera_image (Except.ok b) = Except.ok b ∧
    async_camera_image (Except.error e) = Except.error e :=
  ⟨rfl, rfl⟩

/-- C10: if the byte-copy raises and the subsequent process close raises a
broken-pipe-style error, the copy error is discarded too: the `return`
inside the `finally` block overrides the in-flight exception, so the
operation returns normally and surfaces no error at all. -/
theorem mjpeg_stream_broken_pipe_swallows_copy_error (e : String) :
    handle_async_mjpeg_stream (Except.error e) CloseOutcome.brokenPipe =
      ([StreamEv.proxyCopy, StreamEv.closeProc], Except.ok none) :=
  rfl

/-- C6: a state-attribute read over the current Device Handle state `c`
always yields the attribution entry, the battery-saving mode rendered as
on/off, the IP address and the microphone gain, all taken from `c` at read
time, and the charging/battery-level pair exactly when the device reports
battery capability (the capability flag is sampled at adapter
construction; the hypothesis says the device reports the same capability
at read time, which makes the inclusion an if-and-only-if on the read-time
report).  The result is a pure function of the read-time state `c`, so no
attribute value can be cached between reads. -/
theorem device_state_attributes_live (c0 c : Camera)
    (h : c.supports_feature "battery_level" = c0.supports_feature "battery_level") :
    device_state_attributes (LogiCam.init c0) c =
      [(ATTR_ATTRIBUTION, AttrVal.str ATTRIBUTION),
       ("battery_saving_mode",
         AttrVal.str (if c.battery_saving then STATE_ON else STATE_OFF)),
       ("ip_address", AttrVal.str c.ip_address),
       ("microphone_gain", AttrVal.nat c.microphone_gain)] ++
      (if c.supports_feature "battery_level" then
        [(ATTR_BATTERY_CHARGING, AttrVal.bool c.is_charging),
         (ATTR_BATTERY_LEVEL, AttrVal.nat c.battery_level)]
       else []) := by
  simp [device_state_attributes, LogiCam.init, h]

/-- Witness for C6 at concrete Device Handle states: the adapter was built
while the device reported battery capability, and a later read with
changed mutable state includes both battery attributes with the read-time
values. -/
theorem device_state_attributes_live_witness :
    ((⟨"cam", "mac", fun _ => true, true, "1.2.3.4", 5, true, 77⟩ :
        Camera).supports_feature "battery_level" =
      (⟨"cam", "mac", fun _ => true, false, "ip0", 1, false, 10⟩ :
        Camera).supports_feature "battery_level") ∧
    device_state_attributes
      (LogiCam.init ⟨"cam", "mac", fun _ => true, false, "ip0", 1, false, 10⟩)
      ⟨"cam", "mac", fun _ => true, true, "1.2.3.4", 5, true, 77⟩ =
      [(ATTR_ATTRIBUTION, AttrVal.str ATTRIBUTION),
       ("battery_saving_mode",
         AttrVal.str (if (true : Bool) then STATE_ON else STATE_OFF)),
       ("ip_address", AttrVal.str "1.2.3.4"),
       ("microphone_gain", AttrVal.nat 5)] ++
      (if (true : Bool) then
        [(ATTR_BATTERY_CHARGING, AttrVal.bool true),
         (ATTR_BATTERY_LEVEL, AttrVal.nat 77)]
       else []) :=
  ⟨rfl,
   device_state_attributes_live
     ⟨"cam", "mac", fun _ => true, false, "ip0", 1, false, 10⟩
     ⟨"cam", "mac", fun _ => true, true, "1.2.3.4", 5, true, 77⟩ rfl⟩

/-- C9: dispatching with an explicitly provided but empty entity-id list
is indistinguishable from dispatching with no entity-id entry at all — the
truthiness test sends both to the all-cameras branch, so the whole
dispatch outcome (calls, logs, error) is identical. -/
theorem dispatch_empty_ids_means_all (env : HostEnv)
    (beh : String → DeviceCall → Except String Unit)
    (cameras : List Adapter) (svcName : String) (p : SvcParams) :
    service_handler env beh cameras ⟨svcName, some [], p⟩ =
      service_handler env beh cameras ⟨svcName, none, p⟩ :=
  rfl

/-- When every awaited Device Handle call returns normally, `runCalls`
makes every call in order and raises nothing. -/
theorem runCalls_of_ok (beh : String → DeviceCall → Except String Unit)
    (hbeh : ∀ i c, beh i c = Except.ok ()) (eid : String)
    (cs : List DeviceCall) :
    runCalls beh eid cs = (cs.map (fun c => ⟨eid, c⟩), none) := by
  induction cs with
  | nil => rfl
  | cons c cs ih => simp [runCalls, hbeh, ih]

/-- When every awaited Device Handle call returns normally, no adapter
operation raises. -/
theorem adapterOp_err_none (env : HostEnv)
    (beh : String → DeviceCall → Except String Unit) (cam : Adapter)
    (svcName : String) (p : SvcParams)
    (hbeh : ∀ i c, beh i c = Except.ok ()) :
    (adapterOp env beh cam svcName p).2.2 = none := by
  unfold adapterOp
  split
  · simp [runCalls_of_ok beh hbeh]
  · split
    · simp
    · split <;> simp

/-- When no adapter operation raises, the per-target loop reaches every
selected adapter, concatenating its calls and logs in order. -/
theorem runTargets_of_ok (env : HostEnv)
    (beh : String → DeviceCall → Except String Unit) (svcName : String)
    (p : SvcParams) (hbeh : ∀ i c, beh i c = Except.ok ())
    (l : List Adapter) :
    runTargets env beh svcName p l =
      (l.flatMap (fun cam => (adapterOp env beh cam svcName p).1),
       l.flatMap (fun cam => (adapterOp env beh cam svcName p).2.1),
       none) := by
  induction l with
  | nil => rfl
  | cons cam rest ih =>
    simp [runTargets, adapterOp_err_none env beh cam svcName p hbeh, ih]

/-- C3 (amended): when a NON-EMPTY explicit target-identifier list is
given, the dispatcher invokes the operation exactly on the known adapters
whose entity id is in that list (in order, no others); when no target list
is given, it invokes every known adapter; in both cases the adapter
operation receives the full pass-through params `p` (everything in the
service data except the identifier entry).  The hypothesis that awaited
Device Handle calls return normally isolates target selection from the
abort-on-exception behaviour treated in the C4 theorems.  An explicitly
given EMPTY list falls into the all-adapters branch (see the
counterexample and C9), which is the one correction to the claim. -/
theorem dispatch_target_selection (env : HostEnv)
    (beh : String → DeviceCall → Except String Unit)
    (cameras : List Adapter) (ids : List String) (svcName : String)
    (p : SvcParams) (hbeh : ∀ i c, beh i c = Except.ok ()) :
    (ids ≠ [] →
      (service_handler env beh cameras ⟨svcName, some ids, p⟩).1 =
        (cameras.filter (fun dev => ids.contains dev.entity_id)).flatMap
          (fun cam => (adapterOp env beh cam svcName p).1)) ∧
    (service_handler env beh cameras ⟨svcName, none, p⟩).1 =
      cameras.flatMap (fun cam => (adapterOp env beh cam svcName p).1) := by
  constructor
  · intro hne
    have htd : target_devices cameras (some ids) =
        cameras.filter (fun dev => ids.contains dev.entity_id) := by
      cases ids with
      | nil => exact absurd rfl hne
      | cons a as => rfl
    simp [service_handler, htd, runTargets_of_ok env beh svcName p hbeh]
  · simp [service_handler, target_devices,
      runTargets_of_ok env beh svcName p hbeh]

/-- Witness for C3: three known adapters, an explicit two-element target
list; the theorem applied at these inputs gives the filtered dispatch for
the explicit list and the full dispatch when no list is given. -/
theorem dispatch_target_selection_witness :
    ((["camera.a", "camera.c"] : List String) ≠ []) ∧
    (∀ i c, (fun (_ : String) (_ : DeviceCall) =>
        (Except.ok () : Except String Unit)) i c = Except.ok ()) ∧
    (service_handler ⟨fun _ => true⟩ (fun _ _ => Except.ok ())
        [⟨"camera.a"⟩, ⟨"camera.b"⟩, ⟨"camera.c"⟩]
        ⟨SERVICE_SET_CONFIG, some ["camera.a", "camera.c"],
         ⟨LED_MODE_KEY, true, fun _ => "f", 0⟩⟩).1 =
      ([⟨"camera.a"⟩, ⟨"camera.b"⟩, ⟨"camera.c"⟩].filter
          (fun dev => ["camera.a", "camera.c"].contains dev.entity_id)).flatMap
        (fun cam =>
          (adapterOp ⟨fun _ => true⟩ (fun _ _ => Except.ok ()) cam
            SERVICE_SET_CONFIG ⟨LED_MODE_KEY, true, fun _ => "f", 0⟩).1) ∧
    (service_handler ⟨fun _ => true⟩ (fun _ _ => Except.ok ())
        [⟨"camera.a"⟩, ⟨"camera.b"⟩, ⟨"camera.c"⟩]
        ⟨SERVICE_SET_CONFIG, none,
         ⟨LED_MODE_KEY, true, fun _ => "f", 0⟩⟩).1 =
      [⟨"camera.a"⟩, ⟨"camera.b"⟩, ⟨"camera.c"⟩].flatMap
        (fun cam =>
          (adapterOp ⟨fun _ => true⟩ (fun _ _ => Except.ok ()) cam
            SERVICE_SET_CONFIG ⟨LED_MODE_KEY, true, fun _ => "f", 0⟩).1) :=
  ⟨by decide, fun _ _ => rfl,
   (dispatch_target_selection ⟨fun _ => true⟩ (fun _ _ => Except.ok ())
      [⟨"camera.a"⟩, ⟨"camera.b"⟩, ⟨"camera.c"⟩] ["camera.a", "camera.c"]
      SERVICE_SET_CONFIG ⟨LED_MODE_KEY, true, fun _ => "f", 0⟩
      (fun _ _ => rfl)).1 (by decide),
   (dispatch_target_selection ⟨fun _ => true⟩ (fun _ _ => Except.ok ())
      [⟨"camera.a"⟩, ⟨"camera.b"⟩, ⟨"camera.c"⟩] ["camera.a", "camera.c"]
      SERVICE_SET_CONFIG ⟨LED_MODE_KEY, true, fun _ => "f", 0⟩
      (fun _ _ => rfl)).2⟩

/-- Counterexample for C3 as stated: with an explicitly provided but EMPTY
target-identifier list and one known adapter, the claim says the operation
runs on no adapter (no entity id is in the empty list), yet the code
invokes the adapter: its Device Handle receives `set_led true`. -/
theorem dispatch_target_selection_counterexample :
    (service_handler ⟨fun _ => true⟩ (fun _ _ => Except.ok ())
        [⟨"camera.cam1"⟩]
        ⟨SERVICE_SET_CONFIG, some [],
         ⟨LED_MODE_KEY, true, fun _ => "f", 0⟩⟩).1 =
      [⟨"camera.cam1", DeviceCall.set_led true⟩] ∧
    (([] : List String).contains "camera.cam1") = false :=
  ⟨rfl, rfl⟩

/-- C4 (amended): a per-adapter failure aborts or spares dispatch to the
remaining targets according to whether it surfaces as an exception.  The
first conjunct characterises the loop: the head adapter operation always
runs, and the remaining targets are reached exactly when it raised no
error — so an exception from one adapter (for example a Device Handle
setter failing inside set-config) means the rest of the selected set is
never invoked.  The last two conjuncts show the failures the claim was
written about — whitelist rejections in the two file operations — are
handled inside the adapter (logged, never raised), so they never abort
dispatch. -/
theorem dispatch_abort_on_raise (env : HostEnv)
    (beh : String → DeviceCall → Except String Unit) (cam : Adapter)
    (rest : List Adapter) (svcName : String) (p : SvcParams) :
    (runTargets env beh svcName p (cam :: rest)).1 =
      (adapterOp env beh cam svcName p).1 ++
        (if (adapterOp env beh cam svcName p).2.2 = none then
          (runTargets env beh svcName p rest).1
         else []) ∧
    (adapterOp env beh cam SERVICE_LIVESTREAM_SNAPSHOT p).2.2 = none ∧
    (adapterOp env beh cam SERVICE_LIVESTREAM_RECORD p).2.2 = none := by
  refine ⟨?_, ?_, ?_⟩
  · cases h : (adapterOp env beh cam svcName p).2.2 <;> simp [runTargets, h]
  · unfold adapterOp
    rw [if_neg (by decide), if_pos rfl]
  · unfold adapterOp
    rw [if_neg (by decide), if_neg (by decide), if_pos rfl]

/-- Counterexample for C4 as stated: two known adapters, dispatch targets
both; the Device Handle of the first raises on `set_led`, and the second
adapter is never invoked — its setter does not appear among the made
calls, and the exception propagates out of the dispatch loop. -/
theorem dispatch_abort_on_raise_counterexample :
    (service_handler ⟨fun _ => true⟩
        (fun i _ => if i = "camera.a" then Except.error "offline"
         else Except.ok ())
        [⟨"camera.a"⟩, ⟨"camera.b"⟩]
        ⟨SERVICE_SET_CONFIG, none,
         ⟨LED_MODE_KEY, true, fun _ => "f", 0⟩⟩) =
      ([⟨"camera.a", DeviceCall.set_led true⟩], [], some "offline") ∧
    (⟨"camera.b", DeviceCall.set_led true⟩ : Inv) ∉
      (service_handler ⟨fun _ => true⟩
          (fun i _ => if i = "camera.a" then Except.error "offline"
           else Except.ok ())
          [⟨"camera.a"⟩, ⟨"camera.b"⟩]
          ⟨SERVICE_SET_CONFIG, none,
           ⟨LED_MODE_KEY, true, fun _ => "f", 0⟩⟩).1 := by
  refine ⟨rfl, ?_⟩
  decide
